import Mathlib

/-!
Verification of the kick-chat-logger ingestion supervisor.

This file is a shallow embedding, in Lean 4, of the parts of the
repository that the specification's claims are about:

* `src/utils/sanitize_validate.py` — channel-name sanitization
  (`sanitize_channel_name`, `get_channel_table_name`);
* `config.py` — the `HANDLED_EVENTS` / `IGNORED_EVENTS` sets;
* `src/kick_chat_listener.py` — the session protocol loop
  (`listen_to_chat`, `parse_event`, `handle_websocket_message`),
  with the network and the `json` module modelled as explicit input
  traces / function parameters;
* `src/cli.py` — the per-channel supervisor
  (`_scrape_channel_with_retry`, modelled as `supervise` folding a
  trace of attempt outcomes) and the orchestrator registry
  (`start_channel_scraping`, `stop_channel_scraping`).

Python strings are modelled as lists of Unicode code points
(`PyStr := List Nat`); fallible Python code is modelled with
`Option` / `Except`.
-/

namespace KickChat

/-! ## Channel-name sanitization (src/utils/sanitize_validate.py) -/

/-- A Python string, as its list of Unicode code points. -/
abbrev PyStr := List Nat

/-- Code points of a Lean string literal, for writing concrete examples. -/
def pyOfString (s : String) : PyStr :=
  s.data.map Char.toNat

/-- Python `str.lower()` on one code point, for the ASCII range: `A`-`Z`
maps to `a`-`z`, everything else is unchanged.  (Python also lowercases
non-ASCII cased letters; those lowercase forms are outside
`[a-zA-Z0-9_]` and are replaced by `_` by the later substitution either
way, so the ASCII model agrees with the source on every property proved
below.) -/
def pyLowerChar (c : Nat) : Nat :=
  if 65 ≤ c ∧ c ≤ 90 then c + 32 else c

/-- ASCII whitespace stripped by Python `str.strip()` (space, tab,
newline, carriage return, vertical tab, form feed). -/
def isPySpace (c : Nat) : Bool :=
  c == 32 || c == 9 || c == 10 || c == 13 || c == 11 || c == 12

/-- Python `str.strip()`: drop leading and trailing whitespace. -/
def pyStrip (l : PyStr) : PyStr :=
  ((l.dropWhile isPySpace).reverse.dropWhile isPySpace).reverse

/-- Membership in the character class `[a-zA-Z0-9_]` of the regex in
`sanitize_channel_name`. -/
def isWordChar (c : Nat) : Bool :=
  decide (97 ≤ c ∧ c ≤ 122) || decide (65 ≤ c ∧ c ≤ 90) ||
    decide (48 ≤ c ∧ c ≤ 57) || c == 95

/-- One character of `re.sub(r"[^a-zA-Z0-9_]", "_", ...)`: keep word
characters, replace everything else with `_` (code point 95). -/
def substChar (c : Nat) : Nat :=
  if isWordChar c then c else 95

/-- `sanitize_channel_name` from src/utils/sanitize_validate.py:
`name.lower().strip()` followed by
`re.sub(r"[^a-zA-Z0-9_]", "_", normalized)`. -/
def sanitize_channel_name (name : PyStr) : PyStr :=
  (pyStrip (name.map pyLowerChar)).map substChar

/-- `get_channel_table_name`: the `CHANNEL_TABLE_PREFIX` constant
`"kickchat_"` from config.py, followed by the sanitized name. -/
def get_channel_table_name (channel_name : PyStr) : PyStr :=
  pyOfString "kickchat_" ++ sanitize_channel_name channel_name

/-- Membership in `[a-z0-9_]`, the class the spec requires of every
character of a storage/table key. -/
def isSafeOut (c : Nat) : Bool :=
  decide (97 ≤ c ∧ c ≤ 122) || decide (48 ≤ c ∧ c ≤ 57) || c == 95

/-! ## Event sets (config.py) -/

/-- `HANDLED_EVENTS` from config.py. -/
def HANDLED_EVENTS : List String :=
  ["App\\Events\\ChatMessageEvent",
   "App\\Events\\SubscriptionEvent",
   "App\\Events\\UserBannedEvent",
   "App\\Events\\UserUnbannedEvent",
   "App\\Events\\MessageDeletedEvent",
   "App\\Events\\PinnedMessageCreatedEvent",
   "App\\Events\\ChatMessageSentEvent",
   "App\\Events\\ChatroomUpdatedEvent",
   "App\\Events\\StreamHostEvent",
   "App\\Events\\PinnedMessageDeletedEvent",
   "App\\Events\\ChatroomClearEvent"]

/-- `IGNORED_EVENTS` from config.py. -/
def IGNORED_EVENTS : List String :=
  ["pusher:connection_established",
   "pusher_internal:subscription_succeeded",
   "App\\Events\\PollUpdateEvent",
   "App\\Events\\PollDeleteEvent"]

/-! ## JSON values and the message classifier (src/kick_chat_listener.py) -/

/-- A decoded JSON value (the result of `json.loads`).  Numbers are
modelled as integers; no claim depends on numeric payload contents. -/
inductive JVal where
  | jnull
  | jbool (b : Bool)
  | jnum (n : Int)
  | jstr (s : String)
  | jarr (xs : List JVal)
  | jobj (fields : List (String × JVal))

/-- Python `dict.get(key)` on a decoded JSON object: `none` when the key
is absent or the value is not an object. -/
def JVal.getField : JVal → String → Option JVal
  | JVal.jobj fs, k => List.lookup k fs
  | _, _ => none

/-- The `KickEvent` dataclass from src/kick_event.py. -/
structure KickEvent where
  event : String
  data : JVal

/-- Exceptions that the listener's per-message path can raise. -/
inductive PyErr where
  | valueError      -- `parse_event`: event type is not a string
  | jsonDecode      -- `json.loads` failed
  | attributeError  -- `.get` called on a decoded non-dict value
  deriving DecidableEq

/-- `parse_event` from src/kick_chat_listener.py.  `loads` is the
`json.loads` function of the external `json` module, given as a
parameter; `none` models a raised `JSONDecodeError`.  The source raises
`ValueError` when the `"event"` value is not a string, takes
`message.get("data", "\x7b\x7d")`, and JSON-decodes it when it is a
string. -/
def parse_event (loads : String → Option JVal) (message : JVal) :
    Except PyErr KickEvent :=
  match message.getField "event" with
  | some (JVal.jstr s) =>
    match (message.getField "data").getD (JVal.jstr "\x7b\x7d") with
    | JVal.jstr ds =>
      match loads ds with
      | some v => Except.ok ⟨s, v⟩
      | none => Except.error PyErr.jsonDecode
    | other => Except.ok ⟨s, other⟩
  | _ => Except.error PyErr.valueError

/-- The `"event"` field of a raw message (`message.get("event")`). -/
def eventNameOf (message : JVal) : Option JVal :=
  message.getField "event"

/-- Python `value in <set of strings>`: true exactly when the value is a
string belonging to the set. -/
def memStrSet (v : Option JVal) (set : List String) : Bool :=
  match v with
  | some (JVal.jstr s) => set.contains s
  | _ => false

/-- Result of `handle_websocket_message`: the returned value (or raised
exception), together with the lines appended to the unhandled-messages
overflow file by `_log_unhandled_message`. -/
structure HandleResult where
  result : Except PyErr (Option KickEvent)
  overflow : List JVal

/-- `handle_websocket_message` from src/kick_chat_listener.py: ignored
events return `None` with no side effect; handled events are parsed by
`parse_event`; everything else is appended once to the overflow file and
returns `None`. -/
def handle_websocket_message (loads : String → Option JVal) (message : JVal) :
    HandleResult :=
  if memStrSet (eventNameOf message) IGNORED_EVENTS then
    ⟨Except.ok none, []⟩
  else if memStrSet (eventNameOf message) HANDLED_EVENTS then
    ⟨Except.map some (parse_event loads message), []⟩
  else
    ⟨Except.ok none, [message]⟩

/-! ## The session protocol loop (src/kick_chat_listener.py) -/

/-- A close frame (`websockets.Close`): close code and reason. -/
structure CCFrame where
  code : Nat
  reason : String
  deriving DecidableEq

/-- A `websockets.exceptions.ConnectionClosed` exception, carrying the
received and sent close frames. -/
structure CCExc where
  rcvd : Option CCFrame
  sent : Option CCFrame
  deriving DecidableEq

/-- The `code` attribute of `ConnectionClosed` in the websockets
library: the close code of the *received* frame, or 1006 (abnormal
closure) when no close frame was received.  `cli.py` reads it via
`getattr(e, 'code', None)`; in websockets releases that drop the
deprecated attribute the `getattr` yields `None` instead, which the
supervisor's severity test also rejects, so the modelled value is the
one that can ever satisfy that test. -/
def CCExc.codeAttr (e : CCExc) : Nat :=
  match e.rcvd with
  | some f => f.code
  | none => 1006

/-- The supervisor's severity test `error_code in [4200, 1011]`
(cli.py line 100). -/
def isSevereCode (e : CCExc) : Bool :=
  e.codeAttr == 4200 || e.codeAttr == 1011

/-- What happens in the keepalive step of one receive-loop iteration:
the interval has not elapsed, a ping succeeded, a ping timed out, or the
transport reported closure during the ping.  This is the external
network's behaviour, supplied as input. -/
inductive PingStep where
  | noPing
  | pongOk
  | pongTimeout
  | closedDuringPing (e : CCExc)

/-- What happens in the bounded-receive step of one iteration: the
one-second wait timed out, a raw message arrived (with the storage
collaborator's boolean result for storing it), or the connection
closed. -/
inductive RecvStep where
  | rTimeout
  | rMsg (raw : String) (storeOk : Bool)
  | rClosed (e : CCExc)

/-- One iteration of the receive loop, as seen from the network. -/
structure LoopIter where
  ping : PingStep
  recv : RecvStep

/-- How one `listen_to_chat` call ends: a normal return, a raised
`ConnectionClosed`, or another raised exception. -/
inductive SessionOutcome where
  | finished
  | closed (e : CCExc)
  | raisedError (err : PyErr)
  deriving DecidableEq

/-- The keepalive step (lines 67-99 of src/kick_chat_listener.py).
On success the failure counter resets; on the third consecutive timeout
the loop raises `ConnectionClosed(sent=Close(1011, "Ping timeout"),
rcvd=None)`; a closure during the ping propagates.  Returns the updated
consecutive-failure counter or the raised exception. -/
def pingPhase (pingFails : Nat) : PingStep → Except CCExc Nat
  | PingStep.noPing => Except.ok pingFails
  | PingStep.pongOk => Except.ok 0
  | PingStep.pongTimeout =>
    if pingFails + 1 ≥ 3 then
      Except.error ⟨none, some ⟨1011, "Ping timeout"⟩⟩
    else
      Except.ok (pingFails + 1)
  | PingStep.closedDuringPing e => Except.error e

/-- Result of one receive step: the loop either stops with an outcome or
continues with updated state. -/
inductive StepRes where
  | stop (o : SessionOutcome) (stored : List KickEvent) (overflow : List JVal)
  | next (pingFails : Nat) (stored : List KickEvent) (overflow : List JVal)

/-- The receive step (lines 101-113 of src/kick_chat_listener.py): a
one-second timeout just continues; `json.loads` failure on the raw
payload raises out of the loop (it is caught by neither `except`
clause); a decoded non-dict raises `AttributeError` at `.get`; a raised
error from `handle_websocket_message` likewise propagates; otherwise a
parsed handled event is forwarded to `storage.store_event` (whose
boolean result is only logged) and overflow writes accumulate. -/
def recvPhase (loads : String → Option JVal) (pf : Nat)
    (stored : List KickEvent) (overflow : List JVal) : RecvStep → StepRes
  | RecvStep.rTimeout => StepRes.next pf stored overflow
  | RecvStep.rClosed e => StepRes.stop (SessionOutcome.closed e) stored overflow
  | RecvStep.rMsg raw _ =>
    match loads raw with
    | none => StepRes.stop (SessionOutcome.raisedError PyErr.jsonDecode) stored overflow
    | some m =>
      match m with
      | JVal.jobj fs =>
        match handle_websocket_message loads (JVal.jobj fs) with
        | ⟨Except.error err, _⟩ =>
          StepRes.stop (SessionOutcome.raisedError err) stored overflow
        | ⟨Except.ok none, ovf⟩ => StepRes.next pf stored (overflow ++ ovf)
        | ⟨Except.ok (some ev), ovf⟩ =>
          StepRes.next pf (stored ++ [ev]) (overflow ++ ovf)
      | _ => StepRes.stop (SessionOutcome.raisedError PyErr.attributeError) stored overflow

/-- The receive loop of `listen_to_chat`, folded over the trace of
network iterations.  An exhausted trace models the stop event being
observed at the top of the loop, i.e. a clean cooperative return. -/
def receiveLoop (loads : String → Option JVal) (pf : Nat)
    (stored : List KickEvent) (overflow : List JVal) :
    List LoopIter → SessionOutcome × List KickEvent × List JVal
  | [] => (SessionOutcome.finished, stored, overflow)
  | iter :: rest =>
    match pingPhase pf iter.ping with
    | Except.error e => (SessionOutcome.closed e, stored, overflow)
    | Except.ok pf1 =>
      match recvPhase loads pf1 stored overflow iter.recv with
      | StepRes.stop o st ov => (o, st, ov)
      | StepRes.next pf2 st ov => receiveLoop loads pf2 st ov rest

/-- Python truthiness of the `get_chatroom_id` result, as tested by
`if not chatroom_id:` (line 53): `None` and `0` are falsy. -/
def chatroomTruthy : Option Nat → Bool
  | none => false
  | some n => !(n == 0)

/-- Result of one `listen_to_chat` call: whether a websocket connection
was opened, how the call ended, the events forwarded to storage, and
the overflow-file writes. -/
structure LoopResult where
  connected : Bool
  outcome : SessionOutcome
  stored : List KickEvent
  overflow : List JVal

/-- `listen_to_chat` from src/kick_chat_listener.py.  `resolved` is the
chatroom id returned by `get_chatroom_id` (the external lookup
collaborator); when it is falsy the function logs and *returns* without
ever connecting (lines 53-55).  Otherwise it connects, subscribes, and
runs the receive loop over the supplied network trace. -/
def listen_to_chat (resolved : Option Nat) (loads : String → Option JVal)
    (script : List LoopIter) : LoopResult :=
  if chatroomTruthy resolved then
    let r := receiveLoop loads 0 [] [] script
    ⟨true, r.1, r.2.1, r.2.2⟩
  else
    ⟨false, SessionOutcome.finished, [], []⟩

/-! ## The per-channel supervisor (`_scrape_channel_with_retry`, src/cli.py) -/

/-- How one supervised attempt ends, as the supervisor's `try` sees it:
a normal return from `listen_to_chat`, a raised `ConnectionClosed`, or
any other exception.  `stopDuringWait` records whether the stop event
was set during the subsequent backoff wait (making
`asyncio.wait_for(stop_event.wait(), delay)` return and the loop
`break`). -/
inductive AttemptOutcome where
  | success
  | closed (e : CCExc) (stopDuringWait : Bool)
  | genericErr (stopDuringWait : Bool)
  deriving DecidableEq

/-- Why the supervisor's `while` loop ended. -/
inductive StopReason where
  | cleanReturn    -- `listen_to_chat` returned: counters reset, `break`
  | maxGeneric     -- `retry_count > max_retries` (10)
  | maxConnection  -- `connection_retry_count > max_connection_retries` (50)
  | stopRequested  -- stop event set during a backoff wait
  | scriptEnd      -- trace exhausted with the loop still retrying
  deriving DecidableEq

/-- Final state of one supervision lifetime: the two retry counters, the
number of `listen_to_chat` attempts that were made, and why the loop
ended. -/
structure SupRun where
  finalRetry : Nat
  finalConn : Nat
  attempts : Nat
  reason : StopReason
  deriving DecidableEq

/-- `_scrape_channel_with_retry` (src/cli.py lines 81-167), folded over
a trace of attempt outcomes, starting from the given counter values.
On a normal return the counters are reset and the loop `break`s
(lines 92-94).  On `ConnectionClosed`, `connection_retry_count` is
always incremented first (line 96); the close code then selects the
severe track (`[4200, 1011]`, max 50) or the generic track
(`retry_count`, max 10).  Any other exception takes the generic track.
Exceeding a maximum `break`s; a stop during the backoff wait
`break`s. -/
def supervise : Nat → Nat → List AttemptOutcome → SupRun
  | r, c, [] => ⟨r, c, 0, StopReason.scriptEnd⟩
  | r, c, o :: rest =>
    match o with
    | AttemptOutcome.success => ⟨0, 0, 1, StopReason.cleanReturn⟩
    | AttemptOutcome.genericErr stop =>
      if r + 1 > 10 then ⟨r + 1, c, 1, StopReason.maxGeneric⟩
      else if stop then ⟨r + 1, c, 1, StopReason.stopRequested⟩
      else
        let k := supervise (r + 1) c rest
        ⟨k.finalRetry, k.finalConn, k.attempts + 1, k.reason⟩
    | AttemptOutcome.closed e stop =>
      if isSevereCode e then
        if c + 1 > 50 then ⟨r, c + 1, 1, StopReason.maxConnection⟩
        else if stop then ⟨r, c + 1, 1, StopReason.stopRequested⟩
        else
          let k := supervise r (c + 1) rest
          ⟨k.finalRetry, k.finalConn, k.attempts + 1, k.reason⟩
      else
        if r + 1 > 10 then ⟨r + 1, c + 1, 1, StopReason.maxGeneric⟩
        else if stop then ⟨r + 1, c + 1, 1, StopReason.stopRequested⟩
        else
          let k := supervise (r + 1) (c + 1) rest
          ⟨k.finalRetry, k.finalConn, k.attempts + 1, k.reason⟩

/-- Maps how `listen_to_chat` ended to the `except` clause of the
supervisor that handles it. -/
def outcomeOf (o : SessionOutcome) (stopDuringWait : Bool) : AttemptOutcome :=
  match o with
  | SessionOutcome.finished => AttemptOutcome.success
  | SessionOutcome.closed e => AttemptOutcome.closed e stopDuringWait
  | SessionOutcome.raisedError _ => AttemptOutcome.genericErr stopDuringWait

/-- An attempt outcome that is an ordinary (non-severe) failure, with no
stop request during the backoff wait. -/
def isOrdinaryFailure : AttemptOutcome → Bool
  | AttemptOutcome.success => false
  | AttemptOutcome.genericErr stop => !stop
  | AttemptOutcome.closed e stop => !stop && !isSevereCode e

/-! ## Orchestrator registry (`KickChatLogger`, src/cli.py) -/

/-- The registry of Supervision Entries: the keys of the
`active_tasks` and `stop_events` dictionaries. -/
structure Registry where
  active_tasks : List String
  stop_events : List String
  deriving DecidableEq

/-- Python `del d[name]` / dict-key removal. -/
def removeAll (name : String) (l : List String) : List String :=
  l.filter (fun x => !(x == name))

/-- The registry cleanup at the tail of `_scrape_channel_with_retry`
(cli.py lines 169-172).  It is plain code at the end of the coroutine,
*not* inside a `finally` block, so it runs only when the coroutine runs
to completion. -/
def scrapeTailCleanup (name : String) (reg : Registry) : Registry :=
  ⟨removeAll name reg.active_tasks, removeAll name reg.stop_events⟩

/-- How the supervised task reacts to `stop_channel_scraping`: it
finishes cooperatively within the 5-second grace period; or the grace
period expires and `task.cancel()` takes effect within the further
2-second bound (a `CancelledError` is raised inside the coroutine,
skipping its tail cleanup); or even forced cancellation does not finish
in time. -/
inductive TaskFate where
  | cleanExit
  | cancelled
  | cancelTimeout
  deriving DecidableEq

/-- `stop_channel_scraping` (src/cli.py lines 176-205): returns `False`
when the channel is not supervised; otherwise sets the stop event,
waits, escalates to `task.cancel()` on timeout, and returns `True`.
Registry entries are removed only by the coroutine's own tail cleanup,
which runs only on a clean exit. -/
def stop_channel_scraping (reg : Registry) (name : String) (fate : TaskFate) :
    Bool × Registry :=
  if name ∈ reg.active_tasks then
    match fate with
    | TaskFate.cleanExit => (true, scrapeTailCleanup name reg)
    | TaskFate.cancelled => (true, reg)
    | TaskFate.cancelTimeout => (true, reg)
  else
    (false, reg)

/-- `start_channel_scraping` (src/cli.py lines 50-70): if the channel is
already in `active_tasks`, log and return `True` without touching the
registry; otherwise assign a fresh stop event and a fresh task into the
two dictionaries (dict assignment overwrites any stale key) and return
`True`. -/
def start_channel_scraping (reg : Registry) (name : String) : Bool × Registry :=
  if name ∈ reg.active_tasks then
    (true, reg)
  else
    (true, ⟨removeAll name reg.active_tasks ++ [name],
            removeAll name reg.stop_events ++ [name]⟩)

/-! ## Concrete inputs used in counterexamples and witnesses -/

/-- A raw message carrying the handled chat-message event with an
already-decoded (dict) payload. -/
def demoChatMessage : JVal :=
  JVal.jobj [("event", JVal.jstr "App\\Events\\ChatMessageEvent"),
             ("data", JVal.jobj [])]

/-- A `json.loads` stub: the wire payload `"good"` decodes to
`demoChatMessage`; everything else fails to decode. -/
def demoLoads : String → Option JVal :=
  fun s => if s = "good" then some demoChatMessage else none

/-- An ordinary connection closure: close code 1000 in the received
frame (not in the severe set `[4200, 1011]`). -/
def ordinaryClose : CCExc :=
  ⟨some ⟨1000, "bye"⟩, none⟩

/-- An iteration in which the keepalive ping times out and the
subsequent one-second receive wait also times out. -/
def pingTimeoutIter : LoopIter :=
  ⟨PingStep.pongTimeout, RecvStep.rTimeout⟩

/-- A raw message whose event name is in the ignored set. -/
def demoIgnoredMsg : JVal :=
  JVal.jobj [("event", JVal.jstr "pusher:connection_established")]

/-- A raw message whose event name is in neither named set. -/
def demoUnknownMsg : JVal :=
  JVal.jobj [("event", JVal.jstr "App\\Events\\SomeNewEvent")]

end KickChat

namespace KickChat

/-! ## Helper lemmas on sanitization -/

theorem mem_of_mem_dropWhile {p : Nat → Bool} {x : Nat} {l : List Nat}
    (h : x ∈ l.dropWhile p) : x ∈ l := by
  induction l with
  | nil => simp at h
  | cons a l ih =>
    by_cases hpa : p a
    · exact List.mem_cons_of_mem a (ih (by simpa [List.dropWhile_cons, hpa] using h))
    · simpa [List.dropWhile_cons, hpa] using h

theorem mem_of_mem_pyStrip {x : Nat} {l : PyStr} (h : x ∈ pyStrip l) : x ∈ l := by
  unfold pyStrip at h
  rw [List.mem_reverse] at h
  have h1 := mem_of_mem_dropWhile h
  rw [List.mem_reverse] at h1
  exact mem_of_mem_dropWhile h1

theorem dropWhile_eq_self_of_not {p : Nat → Bool} {l : List Nat}
    (h : ∀ x ∈ l, p x = false) : l.dropWhile p = l := by
  cases l with
  | nil => rfl
  | cons a l => simp [List.dropWhile_cons, h a (List.mem_cons_self a l)]

theorem pyStrip_eq_self_of_not {l : PyStr} (h : ∀ x ∈ l, isPySpace x = false) :
    pyStrip l = l := by
  unfold pyStrip
  rw [dropWhile_eq_self_of_not h]
  rw [dropWhile_eq_self_of_not (fun x hx => h x (by simpa using hx))]
  exact List.reverse_reverse l

theorem map_id_of_mem {f : Nat → Nat} {l : List Nat} (h : ∀ x ∈ l, f x = x) :
    l.map f = l := by
  induction l with
  | nil => rfl
  | cons a l ih =>
    simp [h a (List.mem_cons_self a l),
          ih (fun x hx => h x (List.mem_cons_of_mem a hx))]

theorem isSafeOut_substChar_lower (c : Nat) :
    isSafeOut (substChar (pyLowerChar c)) = true := by
  unfold substChar pyLowerChar isWordChar isSafeOut
  split_ifs <;> (simp_all; try omega)

theorem sanitize_mem_safe {x : Nat} {s : PyStr}
    (hx : x ∈ sanitize_channel_name s) : isSafeOut x = true := by
  unfold sanitize_channel_name at hx
  rw [List.mem_map] at hx
  obtain ⟨d, hd, rfl⟩ := hx
  have hd2 := mem_of_mem_pyStrip hd
  rw [List.mem_map] at hd2
  obtain ⟨c, _, rfl⟩ := hd2
  exact isSafeOut_substChar_lower c

theorem safe_fixed {c : Nat} (h : isSafeOut c = true) :
    pyLowerChar c = c ∧ isPySpace c = false ∧ substChar c = c := by
  simp only [isSafeOut, Bool.or_eq_true, decide_eq_true_eq, beq_iff_eq] at h
  refine ⟨?_, ?_, ?_⟩
  · unfold pyLowerChar
    rw [if_neg]
    omega
  · unfold isPySpace
    simp only [Bool.or_eq_false_iff, beq_eq_false_iff_ne, ne_eq]
    omega
  · unfold substChar
    rw [if_pos]
    unfold isWordChar
    simp only [Bool.or_eq_true, decide_eq_true_eq, beq_iff_eq]
    omega

/-! ## Claim theorems: sanitization -/

/-- C9: `sanitize_channel_name` lowercases its input and maps every
character outside `[a-zA-Z0-9_]` to an underscore; in particular
`"Foo_Bar"` sanitizes to `"foo_bar"`, and for every input string both
the sanitized name and the table key built by `get_channel_table_name`
(the fixed prefix `"kickchat_"` followed by the sanitized name) contain
only characters in `[a-z0-9_]`. -/
theorem sanitize_channel_name_safe (s : PyStr) :
    sanitize_channel_name (pyOfString "Foo_Bar") = pyOfString "foo_bar"
    ∧ (sanitize_channel_name s).all isSafeOut = true
    ∧ (get_channel_table_name s).all isSafeOut = true := by
  have hall : (sanitize_channel_name s).all isSafeOut = true := by
    rw [List.all_eq_true]
    exact fun x hx => sanitize_mem_safe hx
  refine ⟨by decide, hall, ?_⟩
  unfold get_channel_table_name
  rw [List.all_append, Bool.and_eq_true]
  exact ⟨by decide, hall⟩

/-- C10: `sanitize_channel_name` is idempotent: sanitizing an
already-sanitized name changes nothing, so the storage layer's
re-sanitization of names read back from the database is harmless. -/
theorem sanitize_channel_name_idempotent (s : PyStr) :
    sanitize_channel_name (sanitize_channel_name s) = sanitize_channel_name s := by
  have hsafe : ∀ x ∈ sanitize_channel_name s, isSafeOut x = true :=
    fun x hx => sanitize_mem_safe hx
  show (pyStrip ((sanitize_channel_name s).map pyLowerChar)).map substChar
      = sanitize_channel_name s
  rw [map_id_of_mem (fun x hx => (safe_fixed (hsafe x hx)).1),
      pyStrip_eq_self_of_not (fun x hx => (safe_fixed (hsafe x hx)).2.1),
      map_id_of_mem (fun x hx => (safe_fixed (hsafe x hx)).2.2)]

/-! ## Helper lemmas on the classifier -/

theorem handled_not_ignored {s : String} (h : s ∈ HANDLED_EVENTS) :
    s ∉ IGNORED_EVENTS := by
  fin_cases h <;> decide

theorem memStrSet_disjoint (v : Option JVal)
    (h : memStrSet v HANDLED_EVENTS = true) :
    memStrSet v IGNORED_EVENTS = false := by
  cases v with
  | none => simp [memStrSet] at h
  | some j =>
    cases j with
    | jstr s =>
      have h1 : HANDLED_EVENTS.contains s = true := h
      have hmem : s ∈ HANDLED_EVENTS := by rwa [List.elem_iff] at h1
      show IGNORED_EVENTS.contains s = false
      rw [Bool.eq_false_iff]
      intro hc
      rw [List.elem_iff] at hc
      exact handled_not_ignored hmem hc
    | jnull => simp [memStrSet] at h
    | jbool b => simp [memStrSet] at h
    | jnum n => simp [memStrSet] at h
    | jarr xs => simp [memStrSet] at h
    | jobj fs => simp [memStrSet] at h

/-! ## Claim theorem: the three-way classifier (C6) -/

/-- C6: the classifier partitions every raw message by its event-name
field: an ignored event produces no overflow write and no storage call;
an event in neither set is appended to the overflow log exactly once
and produces no storage call; only a handled event is parsed (by
`parse_event`) into a structured `KickEvent`, and in the receive loop a
successfully parsed handled event is the only kind of message forwarded
to `storage.store_event`. -/
theorem classifier_partition (loads : String → Option JVal) (m : JVal) :
    (memStrSet (eventNameOf m) IGNORED_EVENTS = true →
      handle_websocket_message loads m = ⟨Except.ok none, []⟩)
    ∧ (memStrSet (eventNameOf m) IGNORED_EVENTS = false →
      memStrSet (eventNameOf m) HANDLED_EVENTS = false →
      handle_websocket_message loads m = ⟨Except.ok none, [m]⟩)
    ∧ (memStrSet (eventNameOf m) HANDLED_EVENTS = true →
      (handle_websocket_message loads m).overflow = []
      ∧ (handle_websocket_message loads m).result
          = Except.map some (parse_event loads m))
    ∧ (∀ raw pf stored overflow ev ok fs, loads raw = some m → m = JVal.jobj fs →
      (handle_websocket_message loads m).result = Except.ok (some ev) →
      recvPhase loads pf stored overflow (RecvStep.rMsg raw ok)
        = StepRes.next pf (stored ++ [ev])
            (overflow ++ (handle_websocket_message loads m).overflow))
    ∧ (∀ raw pf stored overflow ok fs, loads raw = some m → m = JVal.jobj fs →
      (handle_websocket_message loads m).result = Except.ok none →
      recvPhase loads pf stored overflow (RecvStep.rMsg raw ok)
        = StepRes.next pf stored
            (overflow ++ (handle_websocket_message loads m).overflow)) := by
  refine ⟨?_, ?_, ?_, ?_, ?_⟩
  · intro h
    simp [handle_websocket_message, h]
  · intro h1 h2
    simp [handle_websocket_message, h1, h2]
  · intro h
    have hig := memStrSet_disjoint _ h
    constructor <;> simp [handle_websocket_message, hig, h]
  · intro raw pf stored overflow ev ok fs hload hm hres
    subst hm
    cases hh : handle_websocket_message loads (JVal.jobj fs) with
    | mk res ovf =>
      rw [hh] at hres
      simp only at hres
      subst hres
      simp [recvPhase, hload, hh]
  · intro raw pf stored overflow ok fs hload hm hres
    subst hm
    cases hh : handle_websocket_message loads (JVal.jobj fs) with
    | mk res ovf =>
      rw [hh] at hres
      simp only at hres
      subst hres
      simp [recvPhase, hload, hh]

/-- Witness for C6: the three outcomes and the storage forwarding,
evaluated at concrete messages. -/
theorem classifier_partition_witness :
    handle_websocket_message demoLoads demoIgnoredMsg = ⟨Except.ok none, []⟩
    ∧ handle_websocket_message demoLoads demoUnknownMsg
        = ⟨Except.ok none, [demoUnknownMsg]⟩
    ∧ (handle_websocket_message demoLoads demoChatMessage).overflow = []
    ∧ recvPhase demoLoads 0 [] [] (RecvStep.rMsg "good" true)
        = StepRes.next 0 [⟨"App\\Events\\ChatMessageEvent", JVal.jobj []⟩] [] :=
  ⟨(classifier_partition demoLoads demoIgnoredMsg).1 rfl,
   (classifier_partition demoLoads demoUnknownMsg).2.1 rfl rfl,
   ((classifier_partition demoLoads demoChatMessage).2.2.1 rfl).1,
   (classifier_partition demoLoads demoChatMessage).2.2.2.1 "good" 0 [] []
     ⟨"App\\Events\\ChatMessageEvent", JVal.jobj []⟩ true
     [("event", JVal.jstr "App\\Events\\ChatMessageEvent"),
      ("data", JVal.jobj [])] rfl rfl rfl⟩

/-! ## Claim theorems: resolution failures (C1) -/

/-- C1 counterexample: when session-identifier resolution fails
(`get_chatroom_id` returns `None`), `listen_to_chat` returns normally
without opening a connection, and the supervisor takes the success
path: it resets both counters and breaks out of the retry loop
(`cleanReturn`), leaving `generic_retry_count` at 0 — contradicting the
claim that such a failure is reported upstream as a generic failure
that increments `generic_retry_count` and drives the generic retry
policy. -/
theorem resolution_failure_counterexample :
    (listen_to_chat none demoLoads []).connected = false
    ∧ (listen_to_chat none demoLoads []).outcome = SessionOutcome.finished
    ∧ supervise 0 0 [outcomeOf (listen_to_chat none demoLoads []).outcome false]
        = ⟨0, 0, 1, StopReason.cleanReturn⟩ :=
  ⟨rfl, rfl, rfl⟩

/-- C1 (amended): for every channel whose session-identifier resolution
fails, the session loop aborts the attempt immediately without opening
a connection — but it *returns* instead of raising, so the supervisor
treats the attempt as a successful session completion: both retry
counters are reset to zero and the retry loop breaks; the failure is
not counted as a generic failure and supervision of the channel ends. -/
theorem resolution_failure_treated_as_success
    (loads : String → Option JVal) (script : List LoopIter)
    (stopDuring : Bool) (r c : Nat) (rest : List AttemptOutcome) :
    (listen_to_chat none loads script).connected = false
    ∧ (listen_to_chat none loads script).outcome = SessionOutcome.finished
    ∧ (listen_to_chat none loads script).stored = []
    ∧ (listen_to_chat none loads script).overflow = []
    ∧ supervise r c
        (outcomeOf (listen_to_chat none loads script).outcome stopDuring :: rest)
        = ⟨0, 0, 1, StopReason.cleanReturn⟩ :=
  ⟨rfl, rfl, rfl, rfl, rfl⟩

/-! ## Claim theorems: retry-counter resets and monotonicity (C2) -/

/-- C2 counterexample: a session attempt that completes a full
connect+subscribe+message cycle (one event reaches storage) and then
fails with an ordinary connection closure does *not* reset the
counters: starting from `generic_retry_count = 1`, the supervisor
counts the new failure as 2, whereas the claim requires both counters
to be reset to zero before that failure is counted (which would give
1). -/
theorem counters_not_reset_counterexample :
    (listen_to_chat (some 7) demoLoads
        [⟨PingStep.noPing, RecvStep.rMsg "good" true⟩,
         ⟨PingStep.noPing, RecvStep.rClosed ordinaryClose⟩]).stored.length = 1
    ∧ (listen_to_chat (some 7) demoLoads
        [⟨PingStep.noPing, RecvStep.rMsg "good" true⟩,
         ⟨PingStep.noPing, RecvStep.rClosed ordinaryClose⟩]).outcome
        = SessionOutcome.closed ordinaryClose
    ∧ supervise 1 0
        [outcomeOf (listen_to_chat (some 7) demoLoads
            [⟨PingStep.noPing, RecvStep.rMsg "good" true⟩,
             ⟨PingStep.noPing, RecvStep.rClosed ordinaryClose⟩]).outcome false]
        = ⟨2, 1, 1, StopReason.scriptEnd⟩ :=
  ⟨rfl, rfl, rfl⟩

/-- C2 (amended): within one supervision lifetime the retry counters
are monotonically non-decreasing; they are reset to zero exactly when
an attempt returns without raising, and in that case the supervisor
immediately breaks out of its loop (`cleanReturn`), so no later failure
is ever counted after a reset.  Completing connect+subscribe+message
cycles before a failure does not reset the counters. -/
theorem retry_counters_monotone (r c : Nat) (trace : List AttemptOutcome) :
    ((supervise r c trace).reason = StopReason.cleanReturn
      ∧ (supervise r c trace).finalRetry = 0
      ∧ (supervise r c trace).finalConn = 0)
    ∨ (r ≤ (supervise r c trace).finalRetry
      ∧ c ≤ (supervise r c trace).finalConn) := by
  induction trace generalizing r c with
  | nil => exact Or.inr ⟨le_refl r, le_refl c⟩
  | cons o rest ih =>
    cases o with
    | success => exact Or.inl ⟨rfl, rfl, rfl⟩
    | genericErr stop =>
      simp only [supervise]
      split_ifs
      · exact Or.inr ⟨Nat.le_succ r, le_refl c⟩
      · exact Or.inr ⟨Nat.le_succ r, le_refl c⟩
      · rcases ih (r + 1) c with ⟨h1, h2, h3⟩ | ⟨h1, h2⟩
        · exact Or.inl ⟨h1, h2, h3⟩
        · exact Or.inr ⟨le_trans (Nat.le_succ r) h1, h2⟩
    | closed e stop =>
      simp only [supervise]
      split_ifs
      · exact Or.inr ⟨le_refl r, Nat.le_succ c⟩
      · exact Or.inr ⟨le_refl r, Nat.le_succ c⟩
      · rcases ih r (c + 1) with ⟨h1, h2, h3⟩ | ⟨h1, h2⟩
        · exact Or.inl ⟨h1, h2, h3⟩
        · exact Or.inr ⟨h1, le_trans (Nat.le_succ c) h2⟩
      · exact Or.inr ⟨Nat.le_succ r, Nat.le_succ c⟩
      · exact Or.inr ⟨Nat.le_succ r, Nat.le_succ c⟩
      · rcases ih (r + 1) (c + 1) with ⟨h1, h2, h3⟩ | ⟨h1, h2⟩
        · exact Or.inl ⟨h1, h2, h3⟩
        · exact Or.inr ⟨le_trans (Nat.le_succ r) h1, le_trans (Nat.le_succ c) h2⟩

/-! ## Claim theorems: per-message decode failures (C4) -/

/-- C4 counterexample: a single raw message that is not valid JSON
terminates the session — the `json.loads` failure is caught neither by
the inner `except asyncio.TimeoutError` nor by the outer `except
ConnectionClosed` — and the supervisor counts it as a generic failure,
incrementing `generic_retry_count` from 0 to 1; the claim says the loop
logs it, continues to the next message, and leaves both counters
unchanged. -/
theorem decode_failure_counterexample :
    (listen_to_chat (some 7) demoLoads
        [⟨PingStep.noPing, RecvStep.rMsg "not json" true⟩,
         ⟨PingStep.noPing, RecvStep.rTimeout⟩]).outcome
      = SessionOutcome.raisedError PyErr.jsonDecode
    ∧ supervise 0 0
        [outcomeOf (listen_to_chat (some 7) demoLoads
            [⟨PingStep.noPing, RecvStep.rMsg "not json" true⟩,
             ⟨PingStep.noPing, RecvStep.rTimeout⟩]).outcome false]
        = ⟨1, 0, 1, StopReason.scriptEnd⟩ :=
  ⟨rfl, rfl⟩

/-- C4 (amended): a decode failure on a single message is not swallowed
by the receive loop: `json.loads` raising terminates the loop at once —
the rest of the trace is never processed and nothing further is stored
or logged — the session ends with a raised generic exception, and the
supervisor's handling of that exception increments
`generic_retry_count` by one. -/
theorem decode_failure_aborts_session (loads : String → Option JVal)
    (pf : Nat) (stored : List KickEvent) (overflow : List JVal)
    (raw : String) (ok : Bool) (rest : List LoopIter)
    (h : loads raw = none) :
    receiveLoop loads pf stored overflow
        (⟨PingStep.noPing, RecvStep.rMsg raw ok⟩ :: rest)
      = (SessionOutcome.raisedError PyErr.jsonDecode, stored, overflow)
    ∧ ∀ r c stop,
        (supervise r c [AttemptOutcome.genericErr stop]).finalRetry = r + 1 := by
  constructor
  · simp [receiveLoop, pingPhase, recvPhase, h]
  · intro r c stop
    simp only [supervise]
    split_ifs <;> rfl

/-- Witness for C4 (amended), at a concrete undecodable payload. -/
theorem decode_failure_aborts_session_witness :
    demoLoads "not json" = none
    ∧ (receiveLoop demoLoads 0 [] []
          [⟨PingStep.noPing, RecvStep.rMsg "not json" true⟩, pingTimeoutIter]
        = (SessionOutcome.raisedError PyErr.jsonDecode, [], [])
      ∧ ∀ r c stop,
          (supervise r c [AttemptOutcome.genericErr stop]).finalRetry = r + 1) :=
  ⟨rfl, decode_failure_aborts_session demoLoads 0 [] [] "not json" true
      [pingTimeoutIter] rfl⟩

/-! ## Claim theorems: generic retry-budget exhaustion (C7) -/

theorem supervise_ordinary_exhaust (fails : List AttemptOutcome) :
    ∀ (tail : List AttemptOutcome) (r c : Nat),
      fails.all isOrdinaryFailure = true → 1 ≤ fails.length →
      r + fails.length = 11 →
      (supervise r c (fails ++ tail)).reason = StopReason.maxGeneric
      ∧ (supervise r c (fails ++ tail)).attempts = fails.length
      ∧ (supervise r c (fails ++ tail)).finalRetry = 11 := by
  induction fails with
  | nil =>
    intro tail r c _ hlen _
    simp at hlen
  | cons o rest ih =>
    intro tail r c hall hlen hsum
    rw [List.all_cons, Bool.and_eq_true] at hall
    obtain ⟨ho, hrest⟩ := hall
    rw [List.length_cons] at hsum
    cases o with
    | success => simp [isOrdinaryFailure] at ho
    | genericErr stop =>
      have hstop : stop = false := by
        simp [isOrdinaryFailure] at ho
        exact ho
      subst hstop
      rw [List.cons_append]
      simp only [supervise]
      by_cases h10 : r + 1 > 10
      · rw [if_pos h10]
        have hr0 : rest.length = 0 := by omega
        refine ⟨rfl, ?_, ?_⟩
        · simp [List.length_cons, hr0]
        · simp only
          omega
      · rw [if_neg h10, if_neg (by simp)]
        have := ih tail (r + 1) c hrest (by omega) (by omega)
        exact ⟨this.1, by simp [List.length_cons, this.2.1], this.2.2⟩
    | closed e stop =>
      have hse : stop = false ∧ isSevereCode e = false := by
        simp [isOrdinaryFailure] at ho
        exact ho
      obtain ⟨hstop, hsev⟩ := hse
      subst hstop
      rw [List.cons_append]
      simp only [supervise]
      rw [if_neg (by simp [hsev])]
      by_cases h10 : r + 1 > 10
      · rw [if_pos h10]
        have hr0 : rest.length = 0 := by omega
        refine ⟨rfl, ?_, ?_⟩
        · simp [List.length_cons, hr0]
        · simp only
          omega
      · rw [if_neg h10, if_neg (by simp)]
        have := ih tail (r + 1) (c + 1) hrest (by omega) (by omega)
        exact ⟨this.1, by simp [List.length_cons, this.2.1], this.2.2⟩

/-- C7: given a trace beginning with 11 consecutive ordinary failures —
non-severe connection closures or other generic failures, with no
intervening successful session and no stop request — i.e. N exceeding
the generic retry maximum of 10, the supervisor's loop breaks with
`maxGeneric` after exactly those 11 attempts: whatever the rest of the
trace holds, no further session-protocol-loop attempt is ever
invoked. -/
theorem generic_retry_exhaustion (fails tail : List AttemptOutcome) (c : Nat)
    (hall : fails.all isOrdinaryFailure = true) (hlen : fails.length = 11) :
    (supervise 0 c (fails ++ tail)).reason = StopReason.maxGeneric
    ∧ (supervise 0 c (fails ++ tail)).attempts = 11
    ∧ (supervise 0 c (fails ++ tail)).finalRetry = 11 := by
  have h := supervise_ordinary_exhaust fails tail 0 c hall (by omega) (by omega)
  exact ⟨h.1, hlen ▸ h.2.1, h.2.2⟩

/-- Witness for C7: twelve consecutive generic failures; the supervisor
stops with `maxGeneric` after the 11th attempt and never starts a
12th. -/
theorem generic_retry_exhaustion_witness :
    (List.replicate 11 (AttemptOutcome.genericErr false)).all isOrdinaryFailure
        = true
    ∧ (List.replicate 11 (AttemptOutcome.genericErr false)).length = 11
    ∧ (supervise 0 0 (List.replicate 11 (AttemptOutcome.genericErr false)
          ++ [AttemptOutcome.genericErr false])).attempts = 11
    ∧ (supervise 0 0 (List.replicate 11 (AttemptOutcome.genericErr false)
          ++ [AttemptOutcome.genericErr false])).reason = StopReason.maxGeneric :=
  ⟨by decide, by decide,
   (generic_retry_exhaustion (List.replicate 11 (AttemptOutcome.genericErr false))
      [AttemptOutcome.genericErr false] 0 (by decide) (by decide)).2.1,
   (generic_retry_exhaustion (List.replicate 11 (AttemptOutcome.genericErr false))
      [AttemptOutcome.genericErr false] 0 (by decide) (by decide)).1⟩

/-! ## Claim theorem: ping-timeout closure classification (C8) -/

/-- C8 (divergence at the failing input): three consecutive ping
timeouts with no intervening pong do synthesize
`ConnectionClosed(sent=Close(1011, "Ping timeout"), rcvd=None)` and
exit the loop — but the supervisor reads `getattr(e, 'code', None)`,
and the websockets library's `code` attribute is the close code of the
*received* frame (1006, abnormal closure, when none was received),
never the sent one.  The severity test `in [4200, 1011]` therefore
fails, and the closure is handled on the generic track
(`generic_retry_count` goes 0 → 1 alongside `connection_retry_count`)
instead of the severe, 30-second-capped track that the code's own
comment (`# Server restart or ping timeout`) and the spec intend. -/
theorem ping_timeout_misclassified :
    (listen_to_chat (some 7) demoLoads
        [pingTimeoutIter, pingTimeoutIter, pingTimeoutIter]).outcome
      = SessionOutcome.closed ⟨none, some ⟨1011, "Ping timeout"⟩⟩
    ∧ CCExc.codeAttr ⟨none, some ⟨1011, "Ping timeout"⟩⟩ = 1006
    ∧ isSevereCode ⟨none, some ⟨1011, "Ping timeout"⟩⟩ = false
    ∧ supervise 0 0
        [outcomeOf (listen_to_chat (some 7) demoLoads
            [pingTimeoutIter, pingTimeoutIter, pingTimeoutIter]).outcome false]
        = ⟨1, 1, 1, StopReason.scriptEnd⟩ :=
  ⟨rfl, rfl, rfl, rfl⟩

/-! ## Helper lemmas on the registry -/

theorem not_mem_removeAll (name : String) (l : List String) :
    name ∉ removeAll name l := by
  unfold removeAll
  intro h
  rw [List.mem_filter] at h
  simp at h

theorem count_removeAll (name : String) (l : List String) :
    (removeAll name l).count name = 0 := by
  rw [List.count_eq_zero]
  exact not_mem_removeAll name l

theorem start_already_supervised (reg : Registry) (name : String)
    (h : name ∈ reg.active_tasks) :
    start_channel_scraping reg name = (true, reg) := by
  unfold start_channel_scraping
  rw [if_pos h]

theorem start_fresh (reg : Registry) (name : String)
    (h : name ∉ reg.active_tasks) :
    start_channel_scraping reg name
      = (true, ⟨removeAll name reg.active_tasks ++ [name],
                removeAll name reg.stop_events ++ [name]⟩) := by
  unfold start_channel_scraping
  rw [if_neg h]

/-! ## Claim theorems: stop removes the Supervision Entry (C3) -/

/-- C3 counterexample: stopping a supervised channel whose task only
terminates under forced cancellation returns `True`, yet the channel's
entries remain in both `active_tasks` and `stop_events` — the registry
deletions at the tail of `_scrape_channel_with_retry` are skipped by
the `CancelledError`, contradicting the claim that `stop` removes the
Supervision Entry in all termination paths. -/
theorem stop_forced_cancel_counterexample :
    (stop_channel_scraping ⟨["ch"], ["ch"]⟩ "ch" TaskFate.cancelled).1 = true
    ∧ "ch" ∈ (stop_channel_scraping ⟨["ch"], ["ch"]⟩ "ch"
        TaskFate.cancelled).2.active_tasks
    ∧ "ch" ∈ (stop_channel_scraping ⟨["ch"], ["ch"]⟩ "ch"
        TaskFate.cancelled).2.stop_events := by
  decide

/-- C3 (amended): `stop_channel_scraping` removes the Supervision Entry
only on the clean cooperative-exit path.  The registry deletions live
at the tail of the supervisor coroutine — plain code, not a `finally`
block — so they run only when the coroutine runs to completion; when
the grace period expires and the task is force-cancelled (whether or
not cancellation completes within its own bound), both entries remain
in the registry even though `stop` returns `True`. -/
theorem stop_removes_entry_only_on_clean_exit (reg : Registry) (name : String)
    (h : name ∈ reg.active_tasks) :
    (stop_channel_scraping reg name TaskFate.cleanExit).1 = true
    ∧ name ∉ (stop_channel_scraping reg name TaskFate.cleanExit).2.active_tasks
    ∧ name ∉ (stop_channel_scraping reg name TaskFate.cleanExit).2.stop_events
    ∧ stop_channel_scraping reg name TaskFate.cancelled = (true, reg)
    ∧ stop_channel_scraping reg name TaskFate.cancelTimeout = (true, reg) := by
  unfold stop_channel_scraping
  simp only [if_pos h]
  exact ⟨by simp, not_mem_removeAll name _, not_mem_removeAll name _, by simp, by simp⟩

/-- Witness for C3 (amended), on a one-channel registry. -/
theorem stop_removes_entry_only_on_clean_exit_witness :
    ("ch" ∈ (⟨["ch"], ["ch"]⟩ : Registry).active_tasks)
    ∧ ((stop_channel_scraping ⟨["ch"], ["ch"]⟩ "ch" TaskFate.cleanExit).1 = true
      ∧ "ch" ∉ (stop_channel_scraping ⟨["ch"], ["ch"]⟩ "ch"
          TaskFate.cleanExit).2.active_tasks
      ∧ "ch" ∉ (stop_channel_scraping ⟨["ch"], ["ch"]⟩ "ch"
          TaskFate.cleanExit).2.stop_events
      ∧ stop_channel_scraping ⟨["ch"], ["ch"]⟩ "ch" TaskFate.cancelled
          = (true, ⟨["ch"], ["ch"]⟩)
      ∧ stop_channel_scraping ⟨["ch"], ["ch"]⟩ "ch" TaskFate.cancelTimeout
          = (true, ⟨["ch"], ["ch"]⟩)) :=
  ⟨by decide,
   stop_removes_entry_only_on_clean_exit ⟨["ch"], ["ch"]⟩ "ch" (by decide)⟩

/-! ## Claim theorems: start idempotence (C5) -/

/-- C5: starting supervision of an unsupervised channel and immediately
starting it again yields exactly one Supervision Entry — one key in
`active_tasks` and one in `stop_events` — with both calls returning
`True`, and the second call leaving the registry unchanged (no
duplicate, no replacement). -/
theorem start_twice_idempotent (reg : Registry) (name : String)
    (h : name ∉ reg.active_tasks) :
    (start_channel_scraping reg name).1 = true
    ∧ (start_channel_scraping reg name).2.active_tasks.count name = 1
    ∧ (start_channel_scraping reg name).2.stop_events.count name = 1
    ∧ (start_channel_scraping (start_channel_scraping reg name).2 name).1 = true
    ∧ (start_channel_scraping (start_channel_scraping reg name).2 name).2
        = (start_channel_scraping reg name).2 := by
  have h1 := start_fresh reg name h
  have hmem : name ∈ (start_channel_scraping reg name).2.active_tasks := by
    rw [h1]
    simp
  have h2 := start_already_supervised (start_channel_scraping reg name).2 name hmem
  refine ⟨by rw [h1], ?_, ?_, by rw [h2], by rw [h2]⟩
  · rw [h1]
    simp only
    rw [List.count_append, count_removeAll]
    simp [List.count_cons_self]
  · rw [h1]
    simp only
    rw [List.count_append, count_removeAll]
    simp [List.count_cons_self]

/-- Witness for C5, starting a channel twice on the empty registry. -/
theorem start_twice_idempotent_witness :
    ("chan" ∉ (⟨[], []⟩ : Registry).active_tasks)
    ∧ ((start_channel_scraping ⟨[], []⟩ "chan").1 = true
      ∧ (start_channel_scraping ⟨[], []⟩ "chan").2.active_tasks.count "chan" = 1
      ∧ (start_channel_scraping ⟨[], []⟩ "chan").2.stop_events.count "chan" = 1
      ∧ (start_channel_scraping
          (start_channel_scraping ⟨[], []⟩ "chan").2 "chan").1 = true
      ∧ (start_channel_scraping
          (start_channel_scraping ⟨[], []⟩ "chan").2 "chan").2
          = (start_channel_scraping ⟨[], []⟩ "chan").2) :=
  ⟨by decide, start_twice_idempotent ⟨[], []⟩ "chan" (by decide)⟩

end KickChat
